import Mathlib

/-!
Shallow embedding of `src/nano_medicine.py` (BlackRoad-OS/blackroad-nano-medicine).

The SQLite-backed record store is modelled as an in-memory list of records;
each engine operation takes the store explicitly and returns `Except Err _`
where the Python raises.  Python floats are modelled as exact rationals (`ℚ`),
and Python's `round(x, 2)` as round-half-to-even at two decimal places over ℚ.
Identifiers generated by `uuid` and timestamps from `datetime.now()` are passed
in as explicit arguments, since they come from the environment.
-/

/-- Error taxonomy: the Python code raises `ValueError` either for an
unrecognized enumerated value at construction time (`ValidationError` in the
spec's taxonomy) or for an id that does not resolve in the store (`NotFound`). -/
inductive Err where
  | NotFound : Err
  | ValidationError : Err
deriving DecidableEq, Repr

/-- The `Nanoparticle` dataclass (`src/nano_medicine.py` lines 51-62). -/
structure Nanoparticle where
  id : String
  name : String
  type_str : String
  diameter_nm : ℚ
  surface_charge_mv : ℚ
  drug_payload : String
  encapsulation_pct : ℚ
  targeting_ligand : String
  material : String
  created_at : String
deriving DecidableEq, Repr

/-- The `TreatmentPlan` dataclass (lines 64-75), together with the
`created_at`/`updated_at` columns of the `treatments` table. -/
structure TreatmentPlan where
  id : String
  patient_id : String
  nanoparticle_id : String
  dose_mg_kg : ℚ
  route : String
  frequency : String
  duration_days : ℤ
  status : String
  efficacy_pct : ℚ
  side_effects : List String
  created_at : String
  updated_at : String
deriving DecidableEq, Repr

instance {ε α : Type _} [DecidableEq ε] [DecidableEq α] : DecidableEq (Except ε α) :=
  fun x y =>
    match x, y with
    | .ok a, .ok b =>
      if h : a = b then .isTrue (by rw [h]) else .isFalse (by simp [h])
    | .error e, .error f =>
      if h : e = f then .isTrue (by rw [h]) else .isFalse (by simp [h])
    | .ok _, .error _ => .isFalse (by simp)
    | .error _, .ok _ => .isFalse (by simp)

/-- `SELECT * FROM nanoparticles WHERE id = ?` followed by `fetchone()`:
the store is a list of rows keyed by `id`. -/
def getNanoparticle (store : List Nanoparticle) (np_id : String) : Option Nanoparticle :=
  store.find? (fun np => np.id == np_id)

/-- The allowed `NanoparticleType` enum values (lines 21-27). -/
def nanoparticleTypes : List String :=
  ["liposome", "polymeric", "metallic", "dendrimer", "quantum_dot", "carbon_nanotube"]

/-- The allowed `Material` enum values (lines 42-49). -/
def materials : List String :=
  ["pla", "plga", "chitosan", "gold", "iron_oxide", "silica", "lipid"]

/-- The allowed `DeliveryRoute` enum values (lines 29-34). -/
def deliveryRoutes : List String :=
  ["iv", "oral", "inhalation", "topical", "intratumoral"]

/-- `charge_map.get(material, -10)` (lines 139-149). -/
def charge_map_get (material : String) : ℚ :=
  if material == "lipid" then -10
  else if material == "plga" then -15
  else if material == "pla" then -12
  else if material == "chitosan" then 25
  else if material == "gold" then -8
  else if material == "iron_oxide" then -20
  else if material == "silica" then -25
  else -10

/-- `design_nanoparticle` (lines 129-172).  The generated id
(`NP_` + uuid fragment) and the `datetime.now()` timestamp are environment
inputs, passed here as `np_id` and `created_at`. -/
def design_nanoparticle (np_id : String) (name : String) (type_str : String)
    (diameter_nm : ℚ) (drug_payload : String) (material : String)
    (targeting_ligand : String) (encapsulation_pct : ℚ)
    (created_at : String) : Except Err Nanoparticle :=
  if type_str ∉ nanoparticleTypes then .error .ValidationError
  else if material ∉ materials then .error .ValidationError
  else .ok {
    id := np_id
    name := name
    type_str := type_str
    diameter_nm := diameter_nm
    surface_charge_mv := charge_map_get material
    drug_payload := drug_payload
    encapsulation_pct := encapsulation_pct
    targeting_ligand := targeting_ligand
    material := material
    created_at := created_at
  }

/-- The baseline `tissue_distribution` dict of `simulate_delivery`
(lines 186-193), in insertion order. -/
def baselineDistribution : List (String × ℚ) :=
  [("liver", 35), ("spleen", 25), ("kidney", 15), ("bone_marrow", 10),
   ("tumor", 5), ("other", 10)]

/-- `d.get(k, default)` on an association list. -/
def dictGet (l : List (String × ℚ)) (k : String) (default : ℚ) : ℚ :=
  match l.find? (fun p => p.1 == k) with
  | some p => p.2
  | none => default

/-- `d[k] = v` on an association list: Python dict assignment keeps the
position of an existing key and appends a new key at the end. -/
def dictSet (l : List (String × ℚ)) (k : String) (v : ℚ) : List (String × ℚ) :=
  if l.any (fun p => p.1 == k) then
    l.map (fun p => if p.1 == k then (k, v) else p)
  else
    l ++ [(k, v)]

/-- The tissue-distribution dict of `simulate_delivery` right after the
targeting-ligand boost (lines 186-197), i.e. immediately before the
normalization to concentrations. -/
def tissueDistributionFor (np : Nanoparticle) (target_tissue : String) :
    List (String × ℚ) :=
  if np.targeting_ligand ≠ "" then
    dictSet baselineDistribution target_tissue
      (min 70 (dictGet baselineDistribution target_tissue 10 + 40))
  else
    baselineDistribution

/-- `simulate_delivery` (lines 174-213).  Returns the `biodist` dict; the
per-tissue rows appended to the `biodistribution` table carry exactly these
values, so the append is not modelled separately. -/
def simulate_delivery (store : List Nanoparticle) (nanoparticle_id : String)
    (target_tissue : String) (dose_mg : ℚ) : Except Err (List (String × ℚ)) :=
  match getNanoparticle store nanoparticle_id with
  | none => .error .NotFound
  | some np =>
    let tissue_distribution := tissueDistributionFor np target_tissue
    let total := (tissue_distribution.map Prod.snd).sum
    .ok (tissue_distribution.map (fun p => (p.1, p.2 / total * dose_mg * 1000)))

/-- Python's `round` to the nearest integer, ties to even (banker's rounding),
on an exact rational. -/
def roundHalfEven (x : ℚ) : ℤ :=
  if x - ⌊x⌋ < 1/2 then ⌊x⌋
  else if 1/2 < x - ⌊x⌋ then ⌊x⌋ + 1
  else if ⌊x⌋ % 2 = 0 then ⌊x⌋ else ⌊x⌋ + 1

/-- `round(x, 2)`: round to 2 decimal places. -/
def round2 (x : ℚ) : ℚ :=
  (roundHalfEven (x * 100) : ℚ) / 100

/-- The result dict of `pharmacokinetics` (lines 340-346). -/
structure PKResult where
  cmax_ug_ml : ℚ
  tmax_h : ℚ
  auc_ug_h_ml : ℚ
  half_life_h : ℚ
  clearance_route : String
deriving DecidableEq, Repr

/-- The size-dependent clearance tiers of `pharmacokinetics` (lines 312-319). -/
def t_half_of (diameter : ℚ) : ℚ :=
  if diameter < 50 then 0.5
  else if diameter < 100 then 2.0
  else if diameter < 200 then 6.0
  else 12.0

/-- `material_abs.get(material, 0.75)` (lines 322-332). -/
def material_abs_get (material : String) : ℚ :=
  if material = "lipid" then 0.95
  else if material = "plga" then 0.85
  else if material = "pla" then 0.80
  else if material = "chitosan" then 0.70
  else if material = "gold" then 0.50
  else if material = "iron_oxide" then 0.60
  else if material = "silica" then 0.40
  else 0.75

/-- `pharmacokinetics` (lines 296-346). -/
def pharmacokinetics (store : List Nanoparticle) (nanoparticle_id : String)
    (dose_mg : ℚ) : Except Err PKResult :=
  match getNanoparticle store nanoparticle_id with
  | none => .error .NotFound
  | some np =>
    let diameter := np.diameter_nm
    let material := np.material
    let t_half := t_half_of diameter
    let absorption := material_abs_get material
    let cmax := dose_mg * absorption / (diameter / 100)
    let tmax := t_half * 0.3
    let ke := 0.693 / t_half
    let auc := cmax / ke
    .ok { cmax_ug_ml := round2 cmax, tmax_h := round2 tmax,
          auc_ug_h_ml := round2 auc, half_life_h := round2 t_half,
          clearance_route := material }

/-- The result dict of `toxicity_assessment` (lines 391-397). -/
structure ToxicityResult where
  safety_score : ℚ
  risk_level : String
  diameter_optimal : Bool
  charge_optimal : Bool
  material : String
deriving DecidableEq, Repr

/-- `material_toxicity.get(material, 60)` (lines 379-389). -/
def material_toxicity_get (material : String) : ℚ :=
  if material = "lipid" then 90
  else if material = "plga" then 85
  else if material = "pla" then 85
  else if material = "chitosan" then 80
  else if material = "gold" then 75
  else if material = "iron_oxide" then 70
  else if material = "silica" then 65
  else 60

/-- The size penalty branch of `toxicity_assessment` (lines 364-370):
`score = 100` followed by `score -= 30` / `score -= 15`. -/
def size_penalized_score (diameter : ℚ) : ℚ :=
  if diameter < 10 ∨ diameter > 500 then 100 - 30
  else if diameter < 30 ∨ diameter > 300 then 100 - 15
  else 100

/-- The charge penalty branch of `toxicity_assessment` (lines 373-376),
applied to the running score `s`; `charge` is the already-absolute value
`abs(np_row[4])` and the source tests `abs(charge)` again. -/
def charge_penalized_score (s : ℚ) (charge : ℚ) : ℚ :=
  if |charge| < 5 then s - 10
  else if |charge| > 50 then s - 15
  else s

/-- The final `score = min(score, material_toxicity.get(material, 60))`
(line 389) applied after both penalty branches. -/
def safety_score_of (np : Nanoparticle) : ℚ :=
  min (charge_penalized_score (size_penalized_score np.diameter_nm)
        |np.surface_charge_mv|)
      (material_toxicity_get np.material)

/-- `toxicity_assessment` (lines 348-397). -/
def toxicity_assessment (store : List Nanoparticle) (nanoparticle_id : String) :
    Except Err ToxicityResult :=
  match getNanoparticle store nanoparticle_id with
  | none => .error .NotFound
  | some np =>
    let charge := |np.surface_charge_mv|
    let score := safety_score_of np
    .ok { safety_score := score,
          risk_level :=
            if score > 75 then "low" else if score > 50 then "moderate" else "high",
          diameter_optimal := decide (50 ≤ np.diameter_nm ∧ np.diameter_nm ≤ 200),
          charge_optimal := decide (10 ≤ |charge| ∧ |charge| ≤ 40),
          material := np.material }

/-- The suggestions dict of `optimize_formulation` (lines 399-454); the
Python dict key `"type"` is the field `type_str`. -/
structure FormulationSuggestion where
  diameter_nm : ℚ
  type_str : String
  material : String
  targeting_ligand : String
  charge_mv : ℚ
  route : String
  drug_payload : String
  target_tissue : String
deriving DecidableEq, Repr

/-- `optimize_formulation` (lines 399-454). -/
def optimize_formulation (drug_payload : String) (target_tissue : String) :
    FormulationSuggestion :=
  if target_tissue = "lung" then
    { diameter_nm := 50, type_str := "polymeric", material := "plga",
      targeting_ligand := "folate", charge_mv := -15, route := "inhalation",
      drug_payload := drug_payload, target_tissue := target_tissue }
  else if target_tissue = "tumor" then
    { diameter_nm := 100, type_str := "liposome", material := "lipid",
      targeting_ligand := "rgd_peptide", charge_mv := -20, route := "iv",
      drug_payload := drug_payload, target_tissue := target_tissue }
  else if target_tissue = "brain" then
    { diameter_nm := 80, type_str := "polymeric", material := "pla",
      targeting_ligand := "transferrin", charge_mv := 15, route := "iv",
      drug_payload := drug_payload, target_tissue := target_tissue }
  else if target_tissue = "liver" then
    { diameter_nm := 150, type_str := "dendrimer", material := "chitosan",
      targeting_ligand := "galactose", charge_mv := 25, route := "iv",
      drug_payload := drug_payload, target_tissue := target_tissue }
  else
    { diameter_nm := 100, type_str := "liposome", material := "lipid",
      targeting_ligand := "peg", charge_mv := -10, route := "iv",
      drug_payload := drug_payload, target_tissue := target_tissue }

/-- `update_efficacy` (lines 254-265): a blind SQL UPDATE keyed on the
treatment id.  Every row whose id matches receives the new efficacy, the new
side-effect list, status `"active"`, and the fresh `updated_at` timestamp
(passed in as `now`); rows that do not match are untouched.  An id matching
no row is not an error: the UPDATE affects zero rows and the call returns
normally. -/
def update_efficacy (treatments : List TreatmentPlan) (treatment_id : String)
    (efficacy_pct : ℚ) (side_effects : List String) (now : String) :
    List TreatmentPlan :=
  treatments.map (fun t =>
    if t.id == treatment_id then
      { t with efficacy_pct := efficacy_pct, side_effects := side_effects,
               status := "active", updated_at := now }
    else t)

/-- A sample silica nanoparticle record (diameter 100 nm, surface charge
−20 mV), the concrete input named by the spec's toxicity test. -/
def npSilica : Nanoparticle :=
  { id := "NP1", name := "SilicaTest", type_str := "metallic", diameter_nm := 100,
    surface_charge_mv := -20, drug_payload := "dox", encapsulation_pct := 85,
    targeting_ligand := "", material := "silica", created_at := "2026-01-01" }

/-- A sample nanoparticle with a non-empty targeting ligand. -/
def npTargeted : Nanoparticle :=
  { id := "NP2", name := "LigandTest", type_str := "liposome", diameter_nm := 100,
    surface_charge_mv := -10, drug_payload := "dox", encapsulation_pct := 85,
    targeting_ligand := "rgd_peptide", material := "lipid", created_at := "2026-01-01" }

/-- C4: for every nanoparticle id that does not resolve in the store, each of
`pharmacokinetics`, `toxicity_assessment` and `simulate_delivery` fails with
`NotFound` and returns no result. -/
theorem missing_id_fails_not_found (store : List Nanoparticle)
    (np_id target : String) (dose_mg : ℚ)
    (h : getNanoparticle store np_id = none) :
    pharmacokinetics store np_id dose_mg = .error .NotFound ∧
    toxicity_assessment store np_id = .error .NotFound ∧
    simulate_delivery store np_id target dose_mg = .error .NotFound := by
  refine ⟨?_, ?_, ?_⟩ <;>
    simp [pharmacokinetics, toxicity_assessment, simulate_delivery, h]

/-- Witness for C4: the empty store resolves no id, and all three operations
fail with `NotFound` there. -/
theorem missing_id_fails_not_found_witness :
    pharmacokinetics [] "NP_MISSING" 10 = .error .NotFound ∧
    toxicity_assessment [] "NP_MISSING" = .error .NotFound ∧
    simulate_delivery [] "NP_MISSING" "tumor" 10 = .error .NotFound :=
  missing_id_fails_not_found [] "NP_MISSING" "tumor" 10 rfl

/-- C5: `optimize_formulation "doxorubicin" "tumor"` returns the liposome/
lipid/iv template with diameter 100 and echoes the drug payload and target
tissue; in general the returned template always carries the caller-supplied
`drug_payload` and `target_tissue` unchanged. -/
theorem optimize_formulation_spec :
    (optimize_formulation "doxorubicin" "tumor").type_str = "liposome" ∧
    (optimize_formulation "doxorubicin" "tumor").material = "lipid" ∧
    (optimize_formulation "doxorubicin" "tumor").route = "iv" ∧
    (optimize_formulation "doxorubicin" "tumor").diameter_nm = 100 ∧
    (optimize_formulation "doxorubicin" "tumor").drug_payload = "doxorubicin" ∧
    (optimize_formulation "doxorubicin" "tumor").target_tissue = "tumor" ∧
    ∀ drug_payload target_tissue : String,
      (optimize_formulation drug_payload target_tissue).drug_payload = drug_payload ∧
      (optimize_formulation drug_payload target_tissue).target_tissue = target_tissue := by
  refine ⟨?_, ?_, ?_, ?_, ?_, ?_, ?_⟩
  · simp [optimize_formulation]
  · simp [optimize_formulation]
  · simp [optimize_formulation]
  · simp [optimize_formulation]
  · simp [optimize_formulation]
  · simp [optimize_formulation]
  · intro dp tt
    unfold optimize_formulation
    split_ifs <;> exact ⟨rfl, rfl⟩

/-- C1: for a resolved nanoparticle with positive diameter,
`pharmacokinetics` selects the half-life by the diameter tiers (boundaries
belonging to the tier starting at them), takes the absorption from the
material table with default 0.75, and returns
`cmax = dose_mg * absorption / (diameter / 100)`, `tmax = half_life * 0.3`,
`auc = cmax / (0.693 / half_life)`, all four numeric values rounded to two
decimal places, with `clearance_route` equal to the material label. -/
theorem pharmacokinetics_spec (store : List Nanoparticle) (np_id : String)
    (np : Nanoparticle) (dose_mg : ℚ)
    (hfind : getNanoparticle store np_id = some np)
    (hdiam : 0 < np.diameter_nm) :
    ∃ half_life absorption : ℚ,
      (np.diameter_nm < 50 → half_life = 0.5) ∧
      (50 ≤ np.diameter_nm → np.diameter_nm < 100 → half_life = 2) ∧
      (100 ≤ np.diameter_nm → np.diameter_nm < 200 → half_life = 6) ∧
      (200 ≤ np.diameter_nm → half_life = 12) ∧
      absorption =
        (if np.material = "lipid" then 0.95 else if np.material = "plga" then 0.85
         else if np.material = "pla" then 0.80 else if np.material = "chitosan" then 0.70
         else if np.material = "gold" then 0.50 else if np.material = "iron_oxide" then 0.60
         else if np.material = "silica" then 0.40 else 0.75) ∧
      pharmacokinetics store np_id dose_mg = .ok
        { cmax_ug_ml := round2 (dose_mg * absorption / (np.diameter_nm / 100)),
          tmax_h := round2 (half_life * 0.3),
          auc_ug_h_ml :=
            round2 ((dose_mg * absorption / (np.diameter_nm / 100)) / (0.693 / half_life)),
          half_life_h := round2 half_life,
          clearance_route := np.material } := by
  refine ⟨t_half_of np.diameter_nm, material_abs_get np.material,
    ?_, ?_, ?_, ?_, by rfl, ?_⟩
  · intro h
    unfold t_half_of
    rw [if_pos h]
  · intro h1 h2
    unfold t_half_of
    rw [if_neg (not_lt.mpr h1), if_pos h2]
    norm_num
  · intro h1 h2
    unfold t_half_of
    rw [if_neg (not_lt.mpr (by linarith)), if_neg (not_lt.mpr h1), if_pos h2]
    norm_num
  · intro h1
    unfold t_half_of
    rw [if_neg (not_lt.mpr (by linarith)), if_neg (not_lt.mpr (by linarith)),
        if_neg (not_lt.mpr h1)]
    norm_num
  · simp [pharmacokinetics, hfind]

/-- Witness for C1 at the sample silica particle (diameter 100, dose 10):
the hypotheses hold there and the PK output matches the formulas. -/
theorem pharmacokinetics_spec_witness :
    ∃ half_life absorption : ℚ,
      (npSilica.diameter_nm < 50 → half_life = 0.5) ∧
      (50 ≤ npSilica.diameter_nm → npSilica.diameter_nm < 100 → half_life = 2) ∧
      (100 ≤ npSilica.diameter_nm → npSilica.diameter_nm < 200 → half_life = 6) ∧
      (200 ≤ npSilica.diameter_nm → half_life = 12) ∧
      absorption =
        (if npSilica.material = "lipid" then 0.95 else if npSilica.material = "plga" then 0.85
         else if npSilica.material = "pla" then 0.80 else if npSilica.material = "chitosan" then 0.70
         else if npSilica.material = "gold" then 0.50 else if npSilica.material = "iron_oxide" then 0.60
         else if npSilica.material = "silica" then 0.40 else 0.75) ∧
      pharmacokinetics [npSilica] "NP1" 10 = .ok
        { cmax_ug_ml := round2 (10 * absorption / (npSilica.diameter_nm / 100)),
          tmax_h := round2 (half_life * 0.3),
          auc_ug_h_ml :=
            round2 ((10 * absorption / (npSilica.diameter_nm / 100)) / (0.693 / half_life)),
          half_life_h := round2 half_life,
          clearance_route := npSilica.material } :=
  pharmacokinetics_spec [npSilica] "NP1" npSilica 10 rfl (by norm_num [npSilica])

lemma material_toxicity_get_ge_60 (m : String) : 60 ≤ material_toxicity_get m := by
  unfold material_toxicity_get
  split_ifs <;> norm_num

lemma safety_score_of_ge_55 (np : Nanoparticle) : 55 ≤ safety_score_of np := by
  unfold safety_score_of
  refine le_min ?_ (le_trans (by norm_num) (material_toxicity_get_ge_60 np.material))
  unfold charge_penalized_score size_penalized_score
  split_ifs <;> norm_num

lemma toxicity_assessment_ok_elim (store : List Nanoparticle) (np_id : String)
    (r : ToxicityResult) (hok : toxicity_assessment store np_id = .ok r) :
    ∃ np, getNanoparticle store np_id = some np ∧
      r.safety_score = safety_score_of np ∧
      r.risk_level =
        (if safety_score_of np > 75 then "low"
         else if safety_score_of np > 50 then "moderate" else "high") := by
  cases hfind : getNanoparticle store np_id with
  | none => simp [toxicity_assessment, hfind] at hok
  | some np =>
    simp only [toxicity_assessment, hfind, Except.ok.injEq] at hok
    exact ⟨np, rfl, by rw [← hok], by rw [← hok]⟩

/-- C3: for every resolved nanoparticle, `toxicity_assessment` returns
`safety_score = min(penalized score, material ceiling)` where the penalized
score is 100 minus one size penalty (30 for diameter <10 or >500, else 15 for
<30 or >300) minus at most one charge penalty (10 for |charge| < 5, else 15
for |charge| > 50), the ceiling being the material-table value with default
60, and `risk_level` is "low" above 75, "moderate" above 50, else "high". -/
theorem toxicity_assessment_spec (store : List Nanoparticle) (np_id : String)
    (np : Nanoparticle) (hfind : getNanoparticle store np_id = some np) :
    ∃ r, toxicity_assessment store np_id = .ok r ∧
      r.safety_score =
        min (100
            - (if np.diameter_nm < 10 ∨ np.diameter_nm > 500 then 30
               else if np.diameter_nm < 30 ∨ np.diameter_nm > 300 then 15 else 0)
            - (if |np.surface_charge_mv| < 5 then 10
               else if |np.surface_charge_mv| > 50 then 15 else 0))
          (if np.material = "lipid" then 90 else if np.material = "plga" then 85
           else if np.material = "pla" then 85 else if np.material = "chitosan" then 80
           else if np.material = "gold" then 75 else if np.material = "iron_oxide" then 70
           else if np.material = "silica" then 65 else 60) ∧
      r.risk_level =
        (if r.safety_score > 75 then "low"
         else if r.safety_score > 50 then "moderate" else "high") := by
  have hrun : toxicity_assessment store np_id = .ok
      { safety_score := safety_score_of np,
        risk_level :=
          if safety_score_of np > 75 then "low"
          else if safety_score_of np > 50 then "moderate" else "high",
        diameter_optimal := decide (50 ≤ np.diameter_nm ∧ np.diameter_nm ≤ 200),
        charge_optimal :=
          decide (10 ≤ |(|np.surface_charge_mv|)| ∧ |(|np.surface_charge_mv|)| ≤ 40),
        material := np.material } := by
    simp only [toxicity_assessment, hfind]
  refine ⟨_, hrun, ?_, ?_⟩
  · show safety_score_of np = _
    unfold safety_score_of charge_penalized_score size_penalized_score
      material_toxicity_get
    simp only [abs_abs]
    congr 1
    split_ifs <;> norm_num
  · rfl

/-- Witness for C3 at the silica particle of the spec's test (diameter 100,
charge −20): the score is min(100, 65) = 65 and the risk level "moderate". -/
theorem toxicity_assessment_spec_witness :
    (∃ r, toxicity_assessment [npSilica] "NP1" = .ok r ∧
      r.safety_score =
        min (100
            - (if npSilica.diameter_nm < 10 ∨ npSilica.diameter_nm > 500 then 30
               else if npSilica.diameter_nm < 30 ∨ npSilica.diameter_nm > 300 then 15 else 0)
            - (if |npSilica.surface_charge_mv| < 5 then 10
               else if |npSilica.surface_charge_mv| > 50 then 15 else 0))
          (if npSilica.material = "lipid" then 90 else if npSilica.material = "plga" then 85
           else if npSilica.material = "pla" then 85 else if npSilica.material = "chitosan" then 80
           else if npSilica.material = "gold" then 75 else if npSilica.material = "iron_oxide" then 70
           else if npSilica.material = "silica" then 65 else 60) ∧
      r.risk_level =
        (if r.safety_score > 75 then "low"
         else if r.safety_score > 50 then "moderate" else "high")) ∧
    toxicity_assessment [npSilica] "NP1" =
      .ok { safety_score := 65, risk_level := "moderate", diameter_optimal := true,
            charge_optimal := true, material := "silica" } := by
  constructor
  · exact toxicity_assessment_spec [npSilica] "NP1" npSilica rfl
  · simp [toxicity_assessment, getNanoparticle, npSilica, List.find?,
      safety_score_of, charge_penalized_score, size_penalized_score,
      material_toxicity_get]
    norm_num [min_def]

/-- C10 (implicit): the safety score is always at least 55 — the worst
penalties total 45 and every material ceiling is at least 60 — so the risk
level "high" (which requires a score of at most 50) is never returned. -/
theorem safety_floor_no_high_risk (store : List Nanoparticle) (np_id : String)
    (r : ToxicityResult) (hok : toxicity_assessment store np_id = .ok r) :
    55 ≤ r.safety_score ∧ r.risk_level ≠ "high" := by
  obtain ⟨np, -, hscore, hrisk⟩ := toxicity_assessment_ok_elim store np_id r hok
  have h55 := safety_score_of_ge_55 np
  refine ⟨hscore ▸ h55, ?_⟩
  rw [hrisk]
  split_ifs with h1 h2
  · simp
  · simp
  · exact absurd (by linarith : safety_score_of np > 50) h2

lemma baseline_value_ge_five : ∀ p ∈ baselineDistribution, (5:ℚ) ≤ p.2 := by
  intro p hp
  simp [baselineDistribution] at hp
  rcases hp with h | h | h | h | h | h <;> rw [h] <;> norm_num

lemma dictGet_baseline_ge_five (k : String) :
    (5:ℚ) ≤ dictGet baselineDistribution k 10 := by
  unfold dictGet
  cases h : baselineDistribution.find? (fun p => p.1 == k) with
  | none => norm_num
  | some p => exact baseline_value_ge_five p (List.mem_of_find?_eq_some h)

lemma boost_value_ge (k : String) :
    (45:ℚ) ≤ min 70 (dictGet baselineDistribution k 10 + 40) := by
  have h := dictGet_baseline_ge_five k
  exact le_min (by norm_num) (by linarith)

lemma tissueDistribution_value_pos (np : Nanoparticle) (target : String) :
    ∀ p ∈ tissueDistributionFor np target, 0 < p.2 := by
  intro p hp
  unfold tissueDistributionFor at hp
  split_ifs at hp with hl
  · unfold dictSet at hp
    split_ifs at hp with ha
    · obtain ⟨q, hq, hpq⟩ := List.mem_map.mp hp
      by_cases hqt : (q.1 == target) = true
      · rw [if_pos hqt] at hpq
        have h45 := boost_value_ge target
        rw [← hpq]
        dsimp only
        linarith
      · rw [if_neg hqt] at hpq
        rw [← hpq]
        have := baseline_value_ge_five q hq
        linarith
    · rw [List.mem_append] at hp
      rcases hp with hmem | hmem
      · have := baseline_value_ge_five p hmem
        linarith
      · simp only [List.mem_singleton] at hmem
        rw [hmem]
        dsimp only
        have := boost_value_ge target
        linarith
  · have := baseline_value_ge_five p hp
    linarith

lemma tissueDistribution_ne_nil (np : Nanoparticle) (target : String) :
    tissueDistributionFor np target ≠ [] := by
  unfold tissueDistributionFor dictSet
  split_ifs <;> simp [baselineDistribution]

lemma tissueDistribution_sum_pos (np : Nanoparticle) (target : String) :
    0 < ((tissueDistributionFor np target).map Prod.snd).sum := by
  apply List.sum_pos
  · intro x hx
    obtain ⟨p, hp, rfl⟩ := List.mem_map.mp hx
    exact tissueDistribution_value_pos np target p hp
  · intro h
    exact tissueDistribution_ne_nil np target (List.map_eq_nil_iff.mp h)

lemma sum_map_mul_const (l : List ℚ) (c : ℚ) :
    (l.map fun x => x * c).sum = l.sum * c := by
  induction l with
  | nil => simp
  | cons a t ih => simp [ih, add_mul]

/-- C2: whenever `simulate_delivery` succeeds, the per-tissue concentrations
sum to exactly `dose_mg * 1000`, for every target tissue and targeting-ligand
state (in ℚ the conservation is exact, hence within any floating-point
tolerance). -/
theorem simulate_delivery_mass_conservation (store : List Nanoparticle)
    (np_id target : String) (dose_mg : ℚ) (biodist : List (String × ℚ))
    (hrun : simulate_delivery store np_id target dose_mg = .ok biodist) :
    (biodist.map Prod.snd).sum = dose_mg * 1000 := by
  cases hfind : getNanoparticle store np_id with
  | none => simp [simulate_delivery, hfind] at hrun
  | some np =>
    simp only [simulate_delivery, hfind, Except.ok.injEq] at hrun
    subst hrun
    rw [List.map_map]
    have hT := tissueDistribution_sum_pos np target
    set T := ((tissueDistributionFor np target).map Prod.snd).sum with hTdef
    have hcomp :
        (Prod.snd ∘ fun p : String × ℚ => (p.1, p.2 / T * dose_mg * 1000)) =
        ((fun x : ℚ => x * (dose_mg * 1000 / T)) ∘ Prod.snd) := by
      funext p
      dsimp only [Function.comp]
      ring
    rw [hcomp, ← List.map_map, sum_map_mul_const, ← hTdef, mul_comm,
        div_mul_cancel₀ _ (ne_of_gt hT)]

/-- Witness for C2: a concrete no-ligand run at dose 2 mg whose six
concentrations sum to 2000. -/
theorem simulate_delivery_mass_conservation_witness :
    (([("liver", 700), ("spleen", 500), ("kidney", 300), ("bone_marrow", 200),
       ("tumor", 100), ("other", 200)] : List (String × ℚ)).map Prod.snd).sum =
      2 * 1000 :=
  simulate_delivery_mass_conservation [npSilica] "NP1" "tumor" 2 _ (by
    simp [simulate_delivery, getNanoparticle, npSilica, List.find?,
          tissueDistributionFor, dictSet, dictGet, baselineDistribution]
    norm_num)

/-- Witness for C10 at the sample silica particle, whose assessment succeeds
with score 65. -/
theorem safety_floor_no_high_risk_witness :
    55 ≤ ({ safety_score := 65, risk_level := "moderate", diameter_optimal := true,
            charge_optimal := true, material := "silica" } : ToxicityResult).safety_score ∧
    ({ safety_score := 65, risk_level := "moderate", diameter_optimal := true,
       charge_optimal := true, material := "silica" } : ToxicityResult).risk_level ≠ "high" :=
  safety_floor_no_high_risk [npSilica] "NP1" _ (by
    simp [toxicity_assessment, getNanoparticle, npSilica, List.find?,
      safety_score_of, charge_penalized_score, size_penalized_score,
      material_toxicity_get]
    norm_num [min_def])

/-- C6: with a non-empty targeting ligand, a positive dose and target tissue
"tumor", the concentration `simulate_delivery` allocates to the tumor strictly
exceeds the 5% baseline share of the total dose that the tumor receives
without a ligand. -/
theorem ligand_boosts_tumor_share (store : List Nanoparticle) (np_id : String)
    (np : Nanoparticle) (dose_mg : ℚ) (biodist : List (String × ℚ))
    (hfind : getNanoparticle store np_id = some np)
    (hlig : np.targeting_ligand ≠ "")
    (hdose : 0 < dose_mg)
    (hrun : simulate_delivery store np_id "tumor" dose_mg = .ok biodist) :
    5 / 100 * (dose_mg * 1000) < dictGet biodist "tumor" 0 := by
  have htd : tissueDistributionFor np "tumor" =
      [("liver", 35), ("spleen", 25), ("kidney", 15), ("bone_marrow", 10),
       ("tumor", 45), ("other", 10)] := by
    unfold tissueDistributionFor
    rw [if_pos hlig]
    simp [dictSet, dictGet, baselineDistribution, List.find?]
    norm_num [min_def]
  simp only [simulate_delivery, hfind, htd, Except.ok.injEq] at hrun
  subst hrun
  simp [dictGet, List.find?]
  norm_num
  linarith

/-- Witness for C6: the ligand-carrying sample particle at dose 1 mg puts
2250/7 ≈ 321 µg at the tumor, above the 50 µg baseline share. -/
theorem ligand_boosts_tumor_share_witness :
    (5:ℚ) / 100 * (1 * 1000) <
      dictGet [("liver", 250), ("spleen", 1250/7), ("kidney", 750/7),
        ("bone_marrow", 500/7), ("tumor", 2250/7), ("other", 500/7)] "tumor" 0 :=
  ligand_boosts_tumor_share [npTargeted] "NP2" npTargeted 1 _ rfl
    (by simp [npTargeted]) (by norm_num) (by
      simp [simulate_delivery, getNanoparticle, npTargeted, List.find?,
            tissueDistributionFor, dictSet, dictGet, baselineDistribution]
      norm_num)

/-- C7 counterexample: in a `simulate_delivery` call on a ligand-carrying
nanoparticle with target "tumor", the per-tissue percentages immediately
before conversion (after the boost) sum to 140, not 100 — the claim fails. -/
theorem boosted_percentages_sum_ne_100 :
    getNanoparticle [npTargeted] "NP2" = some npTargeted ∧
    ((tissueDistributionFor npTargeted "tumor").map Prod.snd).sum = 140 ∧
    ((tissueDistributionFor npTargeted "tumor").map Prod.snd).sum ≠ 100 := by
  refine ⟨rfl, ?_, ?_⟩ <;>
    (simp [tissueDistributionFor, npTargeted, dictSet, dictGet,
           baselineDistribution, List.find?]
     norm_num [min_def])

/-- C7 amended: the pre-conversion percentages sum to 100 in every call where
the nanoparticle has no targeting ligand (the boost is skipped; with a ligand
the boosted sum can exceed 100 and the code divides by the actual sum). -/
theorem percentages_sum_100_no_ligand (np : Nanoparticle) (target : String)
    (h : np.targeting_ligand = "") :
    ((tissueDistributionFor np target).map Prod.snd).sum = 100 := by
  unfold tissueDistributionFor
  rw [if_neg (by simp [h])]
  norm_num [baselineDistribution]

/-- Witness for the amended C7 at the ligand-free sample particle. -/
theorem percentages_sum_100_no_ligand_witness :
    ((tissueDistributionFor npSilica "liver").map Prod.snd).sum = 100 :=
  percentages_sum_100_no_ligand npSilica "liver" rfl

/-- C8 counterexample: `design_nanoparticle` accepts a negative diameter and a
negative encapsulation percentage — construction succeeds and stores the
negative values verbatim instead of failing. -/
theorem design_accepts_negative_values :
    design_nanoparticle "NP9" "bad" "liposome" (-5) "dox" "lipid" "" (-3) "t" =
      .ok { id := "NP9", name := "bad", type_str := "liposome", diameter_nm := -5,
            surface_charge_mv := -10, drug_payload := "dox",
            encapsulation_pct := -3, targeting_ligand := "", material := "lipid",
            created_at := "t" } := by
  simp [design_nanoparticle, nanoparticleTypes, materials, charge_map_get]

/-- C8 amended: construction validates only the type and material enumerations
(raising otherwise); on success the supplied diameter and encapsulation values
are stored verbatim, with no non-negativity check. -/
theorem design_nanoparticle_stores_verbatim (np_id name type_str : String)
    (diameter_nm : ℚ) (drug_payload material targeting_ligand : String)
    (encapsulation_pct : ℚ) (created_at : String)
    (ht : type_str ∈ nanoparticleTypes) (hm : material ∈ materials) :
    design_nanoparticle np_id name type_str diameter_nm drug_payload material
        targeting_ligand encapsulation_pct created_at =
      .ok { id := np_id, name := name, type_str := type_str,
            diameter_nm := diameter_nm,
            surface_charge_mv := charge_map_get material,
            drug_payload := drug_payload,
            encapsulation_pct := encapsulation_pct,
            targeting_ligand := targeting_ligand, material := material,
            created_at := created_at } := by
  unfold design_nanoparticle
  rw [if_neg (not_not.mpr ht), if_neg (not_not.mpr hm)]

/-- Witness for the amended C8: a valid polymeric/plga particle with negative
diameter and out-of-range encapsulation is constructed verbatim. -/
theorem design_nanoparticle_stores_verbatim_witness :
    design_nanoparticle "NPW" "w" "polymeric" (-7) "d" "plga" "lig" 120 "t" =
      .ok { id := "NPW", name := "w", type_str := "polymeric",
            diameter_nm := -7, surface_charge_mv := charge_map_get "plga",
            drug_payload := "d", encapsulation_pct := 120,
            targeting_ligand := "lig", material := "plga",
            created_at := "t" } :=
  design_nanoparticle_stores_verbatim "NPW" "w" "polymeric" (-7) "d" "plga"
    "lig" 120 "t" (by simp [nanoparticleTypes]) (by simp [materials])

/-- A sample stored treatment plan. -/
def txSample : TreatmentPlan :=
  { id := "TX_1", patient_id := "P1", nanoparticle_id := "NP1", dose_mg_kg := 2,
    route := "iv", frequency := "daily", duration_days := 14,
    status := "planned", efficacy_pct := 0, side_effects := [],
    created_at := "t0", updated_at := "t0" }

/-- C9 counterexample: updating a treatment id absent from the store does not
fail with NotFound — the blind UPDATE matches zero rows, the call completes
silently and the store is returned unchanged. -/
theorem update_efficacy_missing_id_completes :
    update_efficacy [txSample] "TX_MISSING" 50 ["nausea"] "t1" = [txSample] ∧
    update_efficacy [] "TX_MISSING" 50 [] "t1" = [] := by
  constructor
  · simp [update_efficacy, txSample]
  · rfl

/-- C9 amended: when no stored treatment has the given id, `update_efficacy`
leaves the store unchanged but completes normally rather than failing with
NotFound. -/
theorem update_efficacy_missing_id_noop (treatments : List TreatmentPlan)
    (treatment_id : String) (efficacy_pct : ℚ) (side_effects : List String)
    (now : String) (h : ∀ t ∈ treatments, t.id ≠ treatment_id) :
    update_efficacy treatments treatment_id efficacy_pct side_effects now =
      treatments := by
  induction treatments with
  | nil => rfl
  | cons t ts ih =>
    have ht : t.id ≠ treatment_id := h t (List.mem_cons_self t ts)
    have hts : ∀ u ∈ ts, u.id ≠ treatment_id :=
      fun u hu => h u (List.mem_cons_of_mem t hu)
    have htail := ih hts
    simp only [update_efficacy, List.map_cons] at htail ⊢
    rw [if_neg (by simp [ht]), htail]

/-- Witness for the amended C9: a store holding one treatment is unchanged by
an update naming a different id. -/
theorem update_efficacy_missing_id_noop_witness :
    update_efficacy [txSample] "TX_NONE" 75 [] "t9" = [txSample] :=
  update_efficacy_missing_id_noop [txSample] "TX_NONE" 75 [] "t9"
    (by simp [txSample])
